import Mathlib

/-!
Verification of the article-assistant repository's task-coordination core.

The definitions below are a shallow embedding of the Python source:
  * `protocols/messages.py`  — the Pydantic data model (message and tool envelopes),
    together with the `model_dump` / `model_validate` serialization the repository
    uses.  JSON values are modelled by the inductive `Json`; Python `None` is
    `Json.null`; numbers are rationals (a faithful carrier for the ints and
    floats appearing in the models).
  * `tools/mcp_tool_adapter.py` — `call_mcp_tool`, with the network transport
    abstracted by a sum type of outcomes (2xx body / request exception / other
    exception), exactly the cases the adapter's `try/except` distinguishes.
  * `tools/upload_file_tool.py` — `UploadFileTool._arun`.
  * `agents/task_manager/main.py` — the coordinator: `receive_a2a_result`,
    `get_task_status`, `trigger_research_task`, `trigger_article_task`.
  * `agents/researcher/main.py` and `agents/article_draft/main.py` — the two
    agent handlers `receive_a2a_message`; the LLM executor run (`ainvoke`) is
    abstracted as an `Except`-valued outcome (normal return or raised
    exception), and each outbound `task_result` POST is recorded in a list so
    that "exactly one result message is sent" is a statement about that list.

Pydantic's smart-union resolution (used for `A2AMessage.payload` and
`MCPToolCall.parameters`) is modelled as: validate the input against every
union member, keep the member with the most fields set from the input
(leftmost on ties), falling back to the trailing `Dict[str, Any]` member.
-/

/-- JSON-ish values exchanged between the services.  Python `None` is `null`;
Python dicts are `obj` association lists (key order preserved, as in the
source's `dict`s). -/
inductive Json where
  | null : Json
  | str (s : String) : Json
  | num (q : ℚ) : Json
  | bool (b : Bool) : Json
  | arr (xs : List Json) : Json
  | obj (kvs : List (String × Json)) : Json


/-- Python `dict.get` / key lookup on an association list (first match). -/
def jlookup (kvs : List (String × Json)) (k : String) : Option Json :=
  match kvs with
  | [] => none
  | (k', v) :: rest => if k' = k then some v else jlookup rest k

/-- Whether a key is present in the input object (pydantic "field set"). -/
def hasKey (kvs : List (String × Json)) (k : String) : Bool :=
  (jlookup kvs k).isSome

/-- Python truthiness of the JSON values the coordinator tests with `or` /
`if not x`: `None`, `""`, `{}`, `[]`, `0`, `False` are falsy. -/
def Json.truthy : Json → Bool
  | .null => false
  | .str s => !(s = "")
  | .num q => !(q = 0)
  | .bool b => b
  | .arr xs => !xs.isEmpty
  | .obj kvs => !kvs.isEmpty

/-! ## protocols/messages.py — data model -/

/-- `A2APayloadAssignTask` (messages.py): `task_type: str`,
`parameters: Dict[str, Any]` (default `{}`). -/
structure A2APayloadAssignTask where
  task_type : String
  parameters : List (String × Json)


/-- `A2APayloadTaskStatusUpdate` (messages.py): `status: str`,
`progress: Optional[int] = None`, `message: Optional[str] = None`. -/
structure A2APayloadTaskStatusUpdate where
  status : String
  progress : Option Int
  message : Option String


/-- `A2APayloadTaskResult` (messages.py): `status: str`,
`result: Optional[Dict[str, Any]] = None`, `error: Optional[Dict[str, Any]] = None`,
`question: Optional[str] = None`. -/
structure A2APayloadTaskResult where
  status : String
  result : Option (List (String × Json))
  error : Option (List (String × Json))
  question : Option String


/-- The value held by `A2AMessage.payload`:
`Union[A2APayloadAssignTask, A2APayloadTaskStatusUpdate, A2APayloadTaskResult, Dict[str, Any]]`. -/
inductive A2APayload where
  | assign (p : A2APayloadAssignTask)
  | statusUpdate (p : A2APayloadTaskStatusUpdate)
  | taskResult (p : A2APayloadTaskResult)
  | dict (d : List (String × Json))


/-- `A2AMessage` (messages.py).  `timestamp` is the ISO string form the
`datetime` field serializes to under `model_dump(mode='json')`. -/
structure A2AMessage where
  task_id : String
  message_id : String
  sender_agent_id : String
  receiver_agent_id : String
  message_type : String
  timestamp : String
  payload : A2APayload
  context : List (String × Json)


/-- `CreativeLLMGenerateParameters` (messages.py): `prompt: str`,
`model: Optional[str] = None`, `max_tokens: Optional[int] = 5000`,
`temperature: Optional[float] = 0.7`. -/
structure CreativeLLMGenerateParameters where
  prompt : String
  model : Option String
  max_tokens : Option Int
  temperature : Option ℚ


/-- `CloudStorageUploadParameters` (messages.py). -/
structure CloudStorageUploadParameters where
  bucket_name : String
  destination_blob_name : String
  source_file_content : String


/-- `CloudStorageDownloadParameters` (messages.py). -/
structure CloudStorageDownloadParameters where
  bucket_name : String
  source_blob_name : String


/-- `CloudStorageDeleteParameters` (messages.py). -/
structure CloudStorageDeleteParameters where
  bucket_name : String
  blob_name : String


/-- The value held by `MCPToolCall.parameters` (a union of the four known
parameter shapes, with a trailing `Dict[str, Any]`). -/
inductive MCPParams where
  | generate (p : CreativeLLMGenerateParameters)
  | upload (p : CloudStorageUploadParameters)
  | download (p : CloudStorageDownloadParameters)
  | delete (p : CloudStorageDeleteParameters)
  | dict (d : List (String × Json))


/-- `MCPToolCall` (messages.py): `tool_name: str`, `task_id: Optional[str] = None`,
`parameters: Union[...] = {}`. -/
structure MCPToolCall where
  tool_name : String
  task_id : Option String
  parameters : MCPParams


/-- `MCPToolResult` (messages.py): `status: str`,
`result: Optional[Dict[str, Any]] = None`, `error: Optional[Dict[str, Any]] = None`. -/
structure MCPToolResult where
  status : String
  result : Option (List (String × Json))
  error : Option (List (String × Json))


/-! ## Serialization (`model_dump(mode='json')`)

Pydantic's `model_dump` emits every field; an optional field whose value is
`None` is emitted as JSON `null` (the repository never passes `exclude_none`
or `exclude_unset`). -/

def encOptStr : Option String → Json
  | none => Json.null
  | some s => Json.str s

def encOptInt : Option Int → Json
  | none => Json.null
  | some n => Json.num (n : ℚ)

def encOptRat : Option ℚ → Json
  | none => Json.null
  | some q => Json.num q

def encOptObj : Option (List (String × Json)) → Json
  | none => Json.null
  | some m => Json.obj m

def A2APayloadAssignTask.dump (p : A2APayloadAssignTask) : List (String × Json) :=
  [("task_type", Json.str p.task_type), ("parameters", Json.obj p.parameters)]

def A2APayloadTaskStatusUpdate.dump (p : A2APayloadTaskStatusUpdate) : List (String × Json) :=
  [("status", Json.str p.status), ("progress", encOptInt p.progress),
   ("message", encOptStr p.message)]

def A2APayloadTaskResult.dump (p : A2APayloadTaskResult) : List (String × Json) :=
  [("status", Json.str p.status), ("result", encOptObj p.result),
   ("error", encOptObj p.error), ("question", encOptStr p.question)]

def A2APayload.dump : A2APayload → Json
  | .assign p => Json.obj p.dump
  | .statusUpdate p => Json.obj p.dump
  | .taskResult p => Json.obj p.dump
  | .dict d => Json.obj d

def A2AMessage.dump (m : A2AMessage) : Json :=
  Json.obj
    [("task_id", Json.str m.task_id), ("message_id", Json.str m.message_id),
     ("sender_agent_id", Json.str m.sender_agent_id),
     ("receiver_agent_id", Json.str m.receiver_agent_id),
     ("message_type", Json.str m.message_type),
     ("timestamp", Json.str m.timestamp),
     ("payload", m.payload.dump), ("context", Json.obj m.context)]

def CreativeLLMGenerateParameters.dump (p : CreativeLLMGenerateParameters) :
    List (String × Json) :=
  [("prompt", Json.str p.prompt), ("model", encOptStr p.model),
   ("max_tokens", encOptInt p.max_tokens), ("temperature", encOptRat p.temperature)]

def CloudStorageUploadParameters.dump (p : CloudStorageUploadParameters) :
    List (String × Json) :=
  [("bucket_name", Json.str p.bucket_name),
   ("destination_blob_name", Json.str p.destination_blob_name),
   ("source_file_content", Json.str p.source_file_content)]

def CloudStorageDownloadParameters.dump (p : CloudStorageDownloadParameters) :
    List (String × Json) :=
  [("bucket_name", Json.str p.bucket_name),
   ("source_blob_name", Json.str p.source_blob_name)]

def CloudStorageDeleteParameters.dump (p : CloudStorageDeleteParameters) :
    List (String × Json) :=
  [("bucket_name", Json.str p.bucket_name), ("blob_name", Json.str p.blob_name)]

def MCPParams.dump : MCPParams → Json
  | .generate p => Json.obj p.dump
  | .upload p => Json.obj p.dump
  | .download p => Json.obj p.dump
  | .delete p => Json.obj p.dump
  | .dict d => Json.obj d

def MCPToolCall.dump (c : MCPToolCall) : Json :=
  Json.obj
    [("tool_name", Json.str c.tool_name), ("task_id", encOptStr c.task_id),
     ("parameters", c.parameters.dump)]

def MCPToolResult.dump (r : MCPToolResult) : Json :=
  Json.obj
    [("status", Json.str r.status), ("result", encOptObj r.result),
     ("error", encOptObj r.error)]

/-! ## Validation (`model_validate`)

Each `vld*` function models pydantic's validation of one model against an
input object: required fields must be present with the right type, optional
fields default when absent, `null` is accepted for `Optional` fields, and
extra keys are ignored (the models use pydantic's default config).  The
second component of the returned pair is the number of the model's declared
fields present in the input (pydantic's "fields set" count, used by
smart-union resolution). -/

def decStr : Option Json → Option String
  | some (Json.str s) => some s
  | _ => none

/-- Optional[str]: absent or null gives None; a string gives the string;
anything else fails validation. -/
def decOptStr : Option Json → Option (Option String)
  | none => some none
  | some Json.null => some none
  | some (Json.str s) => some (some s)
  | _ => none

/-- Optional[int] with a default used when the field is absent. -/
def decOptIntD (dflt : Option Int) : Option Json → Option (Option Int)
  | none => some dflt
  | some Json.null => some none
  | some (Json.num q) => if q.den = 1 then some (some q.num) else none
  | _ => none

/-- Optional[float] with a default used when the field is absent. -/
def decOptRatD (dflt : Option ℚ) : Option Json → Option (Option ℚ)
  | none => some dflt
  | some Json.null => some none
  | some (Json.num q) => some (some q)
  | _ => none

/-- Optional[Dict[str, Any]]: absent or null gives None. -/
def decOptObj : Option Json → Option (Option (List (String × Json)))
  | none => some none
  | some Json.null => some none
  | some (Json.obj m) => some (some m)
  | _ => none

/-- Dict[str, Any] with `default_factory=dict`: absent gives the empty dict;
null fails validation (the field is not Optional). -/
def decObjD : Option Json → Option (List (String × Json))
  | none => some []
  | some (Json.obj m) => some m
  | _ => none

def countKeys (kvs : List (String × Json)) (ks : List String) : Nat :=
  (ks.filter (fun k => hasKey kvs k)).length

def vldAssignTask (kvs : List (String × Json)) :
    Option (A2APayloadAssignTask × Nat) := do
  let task_type ← decStr (jlookup kvs "task_type")
  let parameters ← decObjD (jlookup kvs "parameters")
  pure (⟨task_type, parameters⟩, countKeys kvs ["task_type", "parameters"])

def vldStatusUpdate (kvs : List (String × Json)) :
    Option (A2APayloadTaskStatusUpdate × Nat) := do
  let status ← decStr (jlookup kvs "status")
  let progress ← decOptIntD none (jlookup kvs "progress")
  let message ← decOptStr (jlookup kvs "message")
  pure (⟨status, progress, message⟩, countKeys kvs ["status", "progress", "message"])

def vldTaskResult (kvs : List (String × Json)) :
    Option (A2APayloadTaskResult × Nat) := do
  let status ← decStr (jlookup kvs "status")
  let result ← decOptObj (jlookup kvs "result")
  let error ← decOptObj (jlookup kvs "error")
  let question ← decOptStr (jlookup kvs "question")
  pure (⟨status, result, error, question⟩,
        countKeys kvs ["status", "result", "error", "question"])

/-- Smart-union pick: the successfully validating member with the most fields
set wins, leftmost on ties (pydantic v2 smart mode). -/
def pickBest {α : Type} (cands : List (α × Nat)) : Option α :=
  (cands.foldl
    (fun acc c =>
      match acc with
      | none => some c
      | some a => if c.2 > a.2 then some c else some a)
    none).map Prod.fst

/-- Validation of `A2AMessage.payload`'s union.  A non-object input fails
every member including the trailing `Dict[str, Any]`. -/
def vldA2APayload : Json → Option A2APayload
  | Json.obj kvs =>
    match pickBest
      ((vldAssignTask kvs).toList.map (fun pc => (A2APayload.assign pc.1, pc.2)) ++
       (vldStatusUpdate kvs).toList.map (fun pc => (A2APayload.statusUpdate pc.1, pc.2)) ++
       (vldTaskResult kvs).toList.map (fun pc => (A2APayload.taskResult pc.1, pc.2))) with
    | some p => some p
    | none => some (A2APayload.dict kvs)
  | _ => none

/-- `A2AMessage.model_validate` on a JSON value. -/
def vldA2AMessage : Json → Option A2AMessage
  | Json.obj kvs => do
    let task_id ← decStr (jlookup kvs "task_id")
    let message_id ← decStr (jlookup kvs "message_id")
    let sender_agent_id ← decStr (jlookup kvs "sender_agent_id")
    let receiver_agent_id ← decStr (jlookup kvs "receiver_agent_id")
    let message_type ← decStr (jlookup kvs "message_type")
    let timestamp ← decStr (jlookup kvs "timestamp")
    let payload ←
      match jlookup kvs "payload" with
      | none => some (A2APayload.dict [])
      | some j => vldA2APayload j
    let context ← decObjD (jlookup kvs "context")
    pure ⟨task_id, message_id, sender_agent_id, receiver_agent_id,
          message_type, timestamp, payload, context⟩
  | _ => none

def vldGenerate (kvs : List (String × Json)) :
    Option (CreativeLLMGenerateParameters × Nat) := do
  let prompt ← decStr (jlookup kvs "prompt")
  let model ← decOptStr (jlookup kvs "model")
  let max_tokens ← decOptIntD (some 5000) (jlookup kvs "max_tokens")
  let temperature ← decOptRatD (some (7 / 10)) (jlookup kvs "temperature")
  pure (⟨prompt, model, max_tokens, temperature⟩,
        countKeys kvs ["prompt", "model", "max_tokens", "temperature"])

def vldUpload (kvs : List (String × Json)) :
    Option (CloudStorageUploadParameters × Nat) := do
  let bucket_name ← decStr (jlookup kvs "bucket_name")
  let destination_blob_name ← decStr (jlookup kvs "destination_blob_name")
  let source_file_content ← decStr (jlookup kvs "source_file_content")
  pure (⟨bucket_name, destination_blob_name, source_file_content⟩,
        countKeys kvs ["bucket_name", "destination_blob_name", "source_file_content"])

def vldDownload (kvs : List (String × Json)) :
    Option (CloudStorageDownloadParameters × Nat) := do
  let bucket_name ← decStr (jlookup kvs "bucket_name")
  let source_blob_name ← decStr (jlookup kvs "source_blob_name")
  pure (⟨bucket_name, source_blob_name⟩,
        countKeys kvs ["bucket_name", "source_blob_name"])

def vldDelete (kvs : List (String × Json)) :
    Option (CloudStorageDeleteParameters × Nat) := do
  let bucket_name ← decStr (jlookup kvs "bucket_name")
  let blob_name ← decStr (jlookup kvs "blob_name")
  pure (⟨bucket_name, blob_name⟩, countKeys kvs ["bucket_name", "blob_name"])

/-- Validation of `MCPToolCall.parameters`'s union. -/
def vldMCPParams : Json → Option MCPParams
  | Json.obj kvs =>
    match pickBest
      ((vldGenerate kvs).toList.map (fun pc => (MCPParams.generate pc.1, pc.2)) ++
       (vldUpload kvs).toList.map (fun pc => (MCPParams.upload pc.1, pc.2)) ++
       (vldDownload kvs).toList.map (fun pc => (MCPParams.download pc.1, pc.2)) ++
       (vldDelete kvs).toList.map (fun pc => (MCPParams.delete pc.1, pc.2))) with
    | some p => some p
    | none => some (MCPParams.dict kvs)
  | _ => none

/-- `MCPToolCall.model_validate` on a JSON value. -/
def vldMCPToolCall : Json → Option MCPToolCall
  | Json.obj kvs => do
    let tool_name ← decStr (jlookup kvs "tool_name")
    let task_id ← decOptStr (jlookup kvs "task_id")
    let parameters ←
      match jlookup kvs "parameters" with
      | none => some (MCPParams.dict [])
      | some j => vldMCPParams j
    pure ⟨tool_name, task_id, parameters⟩
  | _ => none

/-- `MCPToolResult.model_validate` on a JSON value (also what
`MCPToolResult(**response.json())` performs in the adapter). -/
def vldMCPToolResult : Json → Option MCPToolResult
  | Json.obj kvs => do
    let status ← decStr (jlookup kvs "status")
    let result ← decOptObj (jlookup kvs "result")
    let error ← decOptObj (jlookup kvs "error")
    pure ⟨status, result, error⟩
  | _ => none

/-- The model (non-`Dict[str, Any]`) members of the payload union — the
spec's three tagged `TaskMessage` payload variants. -/
def A2APayload.modelVariant : A2APayload → Bool
  | .dict _ => false
  | _ => true

/-- The model members of the tool-parameter union. -/
def MCPParams.modelVariant : MCPParams → Bool
  | .dict _ => false
  | _ => true

/-- The canonical inhabitants of the payload union: the three model variants,
and — for the trailing `Dict[str, Any]` arm — the open maps that none of the
model members validates.  These are exactly the values pydantic's union
validation can produce: a dict some model member accepts is decoded to that
model and never rests in the dict arm. -/
def A2APayload.canonical : A2APayload → Bool
  | .dict d =>
    (vldAssignTask d).isNone && (vldStatusUpdate d).isNone && (vldTaskResult d).isNone
  | _ => true

/-- The canonical inhabitants of the tool-parameter union: the four known
parameter shapes, and the open maps (unknown tools' parameters, e.g. the
research tool's `{"query": ...}`) that none of the model members validates. -/
def MCPParams.canonical : MCPParams → Bool
  | .dict d =>
    (vldGenerate d).isNone && (vldUpload d).isNone &&
      (vldDownload d).isNone && (vldDelete d).isNone
  | _ => true

/-! ## agents/task_manager/main.py — the coordinator -/

/-- One entry of the coordinator's `task_statuses` table.  The `result`,
`error` and `question` fields hold the Python values the handler stores:
`None` (`Json.null`), dicts, or — for `question` — possibly a plain string. -/
structure TaskRecord where
  status : String
  result : Json
  error : Json
  question : Json

/-- The in-memory `task_statuses: Dict[str, Dict[str, Any]]` table.  A later
binding for the same key shadows an earlier one, so consing models Python's
`task_statuses[task_id] = record`. -/
abbrev Table := List (String × TaskRecord)

def Table.get : Table → String → Option TaskRecord
  | [], _ => none
  | (k, r) :: rest, tid => if k = tid then some r else Table.get rest tid

def Table.set (t : Table) (tid : String) (r : TaskRecord) : Table := (tid, r) :: t

/-- Response of the result-ingestion and agent endpoints: a JSON body
`{status, message_id, detail}` or a raised `HTTPException`. -/
inductive ApiResp where
  | ok (status : String) (message_id : String) (detail : String)
  | httpError (code : Nat) (detail : String)

/-- Response of `get_task_status`: the record, or a raised 404. -/
inductive StatusResp where
  | ok (r : TaskRecord)
  | httpError (code : Nat) (detail : String)

/-- Response of the trigger endpoints: `{status, task_id, message}` or a
raised `HTTPException`. -/
inductive TriggerResp where
  | ok (status : String) (task_id : String) (message : String)
  | httpError (code : Nat) (detail : String)

/-- The record lazily default-initialized at line 49 of task_manager/main.py. -/
def defaultRecord : TaskRecord :=
  ⟨"unknown", Json.null, Json.null, Json.null⟩

/-- Python `payload.error or {"message": "Unknown error from agent."}`:
`None` and the empty dict are falsy, so both yield the default. -/
def errorOrDefault : Option (List (String × Json)) → List (String × Json)
  | none => [("message", Json.str "Unknown error from agent.")]
  | some [] => [("message", Json.str "Unknown error from agent.")]
  | some m => m

/-- Python `payload.question or {"text": "Clarification needed, no question
provided."}`: `None` and the empty string are falsy and yield the default —
which is a dict, while a truthy question stays a plain string. -/
def questionOrDefault : Option String → Json
  | none => Json.obj [("text", Json.str "Clarification needed, no question provided.")]
  | some "" => Json.obj [("text", Json.str "Clarification needed, no question provided.")]
  | some s => Json.str s

/-- Python `payload.result or {}` (lines 54-56): `None` and the empty dict
both give the empty dict. -/
def resultOrEmpty (r : Option (List (String × Json))) : List (String × Json) :=
  r.getD []

/-- Lines 52-77 of task_manager/main.py: the single status-keyed update
applied to the current record for a validated `A2APayloadTaskResult`. -/
def applyTaskResult (p : A2APayloadTaskResult) (current : TaskRecord) : TaskRecord :=
  let cur := { current with status := p.status }
  if p.status = "completed" then
    { cur with result := Json.obj (resultOrEmpty p.result),
               error := Json.null, question := Json.null }
  else if p.status = "failed" then
    { cur with result := Json.null, error := Json.obj (errorOrDefault p.error),
               question := Json.null }
  else if p.status = "requires_clarification" then
    { cur with result := Json.null, error := Json.null,
               question := questionOrDefault p.question }
  else
    { cur with status := "unknown",
               error := Json.obj [("message",
                 Json.str ("Received unknown status: " ++ p.status))] }

/-- The record stored by the `except` arm (lines 84-93) when the payload
cannot be processed; `e` abstracts `str(e)` of the raised exception. -/
def payloadErrorRecord (e : String) : TaskRecord :=
  ⟨"failed", Json.null,
   Json.obj [("message", Json.str ("Internal server error processing result payload: " ++ e))],
   Json.null⟩

/-- `receive_a2a_result` (task_manager/main.py lines 17-97), as a function of
the current table and the parsed inbound message; returns the new table and
the endpoint's response.  A missing `task_id` is the empty string (FastAPI
would reject an absent required field before the handler runs; the handler's
own `if not task_id` guard sees a falsy value).  The `payload` field carries
whatever variant FastAPI's union validation produced; the handler re-validates
dicts with `A2APayloadTaskResult.model_validate` and raises `ValueError` on
the remaining model types, which the `except` arm converts to a failed
record. -/
def receive_a2a_result (table : Table) (message : A2AMessage) : Table × ApiResp :=
  if message.task_id = "" then
    (table, .ok "ack_error" message.message_id "Result received but task_id missing.")
  else if message.message_type = "task_result" then
    let applyOk := fun (p : A2APayloadTaskResult) =>
      let current := (table.get message.task_id).getD defaultRecord
      (table.set message.task_id (applyTaskResult p current),
       ApiResp.ok "ack" message.message_id "Result received and processed.")
    let applyErr := fun (e : String) =>
      (table.set message.task_id (payloadErrorRecord e),
       ApiResp.ok "error" message.message_id
         ("Internal error processing result payload: " ++ e))
    match message.payload with
    | .taskResult p => applyOk p
    | .dict d =>
      match vldTaskResult d with
      | some (p, _) => applyOk p
      | none => applyErr "validation of payload dict as A2APayloadTaskResult failed"
    | .assign _ => applyErr "Invalid payload type received: A2APayloadAssignTask"
    | .statusUpdate _ => applyErr "Invalid payload type received: A2APayloadTaskStatusUpdate"
  else
    (table, .ok "error" message.message_id
      ("Unexpected message type on result endpoint: " ++ message.message_type))

/-- `get_task_status` (task_manager/main.py lines 99-113). -/
def get_task_status (table : Table) (task_id : String) : StatusResp :=
  match table.get task_id with
  | some r => .ok r
  | none => .httpError 404 "Task ID not found or not yet initialized."

/-- Outcome of the coordinator's `requests.post(..., timeout=5)` dispatch:
a quick 2xx response, a `Timeout`, or any other `RequestException` (which
includes the `HTTPError` raised by `raise_for_status` on a non-2xx answer). -/
inductive SendOutcome where
  | ok
  | timeout
  | reqError (e : String)

/-- The fresh record inserted by both trigger endpoints before dispatch. -/
def processingRecord : TaskRecord :=
  ⟨"processing", Json.null, Json.null, Json.null⟩

/-- The `A2APayloadAssignTask` built by `trigger_research_task` (lines 129-132). -/
def research_assign_payload (topic : String) : A2APayloadAssignTask :=
  ⟨"research", [("topic", Json.str topic), ("language", Json.str "Turkish"),
                ("max_words", Json.num 500)]⟩

/-- The `A2AMessage` posted by `trigger_research_task` (lines 133-137); note
the payload is passed as the `model_dump()` dict. -/
def research_assign_message (topic tid mid ts : String) : A2AMessage :=
  ⟨tid, mid, "task_manager_agent", "researcher_agent", "assign_task", ts,
   .dict (research_assign_payload topic).dump, []⟩

/-- `trigger_research_task` (task_manager/main.py lines 116-157).  The
generated `uuid4` identifiers and the dispatch outcome are parameters. -/
def trigger_research_task (topic tid mid : String) (table : Table)
    (send : SendOutcome) : Table × TriggerResp :=
  let table1 := table.set tid processingRecord
  match send with
  | .ok => (table1, .ok "processing" tid "Research task assignment sent.")
  | .timeout => (table1, .ok "processing" tid "Research task assignment sent.")
  | .reqError e =>
    (table1.set tid
      ⟨"failed", Json.null,
       Json.obj [("message", Json.str ("Failed to communicate with Researcher Agent: " ++ e))],
       Json.null⟩,
     .httpError 503 ("Failed to communicate with Researcher Agent: " ++ e))

/-- The `A2APayloadAssignTask` built by `trigger_article_task` (lines 172-177):
`style` is added to the parameters only when present. -/
def article_assign_payload (topic : String) (style : Option String) :
    A2APayloadAssignTask :=
  ⟨"write_article_draft",
   [("topic", Json.str topic)] ++
     (match style with | some s => [("style", Json.str s)] | none => [])⟩

/-- The `A2AMessage` posted by `trigger_article_task` (lines 178-182). -/
def article_assign_message (topic : String) (style : Option String)
    (tid mid ts : String) : A2AMessage :=
  ⟨tid, mid, "task_manager_agent", "article_draft_agent", "assign_task", ts,
   .dict (article_assign_payload topic style).dump, []⟩

/-- `trigger_article_task` (task_manager/main.py lines 160-202). -/
def trigger_article_task (topic : String) (style : Option String)
    (tid mid : String) (table : Table) (send : SendOutcome) : Table × TriggerResp :=
  let table1 := table.set tid processingRecord
  match send with
  | .ok => (table1, .ok "processing" tid "Article draft task assignment sent.")
  | .timeout => (table1, .ok "processing" tid "Article draft task assignment sent.")
  | .reqError e =>
    (table1.set tid
      ⟨"failed", Json.null,
       Json.obj [("message", Json.str ("Failed to communicate with Article Draft Agent: " ++ e))],
       Json.null⟩,
     .httpError 503 ("Failed to communicate with Article Draft Agent: " ++ e))

/-! ## tools/mcp_tool_adapter.py -/

/-- Outcome of the adapter's `requests.post` + `raise_for_status` +
`response.json()`: a 2xx response whose body decoded to this JSON value, a
`RequestException` (connection error, timeout, the `HTTPError` from a non-2xx
status, or a JSON decode error), or any other exception. -/
inductive TransportOutcome where
  | ok (body : Json)
  | reqError (e : String)
  | otherError (e : String)

/-- The request body `tool_call_payload.model_dump(mode='json')` posted by the
adapter (parameters are passed as a plain dict, the union's last member). -/
def mcp_request_body (tool_name : String) (task_id : Option String)
    (parameters : List (String × Json)) : Json :=
  (MCPToolCall.mk tool_name task_id (.dict parameters)).dump

/-- `call_mcp_tool` (tools/mcp_tool_adapter.py lines 9-52).  The
`MCPToolResult(**response.json())` validation of a 2xx body can itself raise
(a pydantic `ValidationError`, caught by the generic `except`); `e` strings
abstract `str(e)` of the Python exceptions. -/
def call_mcp_tool (mcp_server_url tool_name : String)
    (parameters : List (String × Json)) (task_id : Option String)
    (outcome : TransportOutcome) : MCPToolResult :=
  match outcome with
  | .ok body =>
    match vldMCPToolResult body with
    | some r => r
    | none =>
      ⟨"failure", none,
       some [("code", Json.str "UNEXPECTED_ERROR"),
             ("message", Json.str "validation of response body as MCPToolResult failed")]⟩
  | .reqError e =>
    ⟨"failure", none,
     some [("code", Json.str "MCP_CALL_FAILED"), ("message", Json.str e)]⟩
  | .otherError e =>
    ⟨"failure", none,
     some [("code", Json.str "UNEXPECTED_ERROR"), ("message", Json.str e)]⟩

/-! ## tools/upload_file_tool.py -/

/-- Python `str()` of the flat JSON values that can appear in a tool result;
container renderings are abstracted. -/
def Json.pyShow : Json → String
  | .null => "None"
  | .str s => s
  | .num q => toString q
  | .bool b => if b then "True" else "False"
  | .arr _ => ""
  | .obj _ => ""

/-- `UploadFileTool._arun` (tools/upload_file_tool.py lines 23-43): returns
the observation string handed back to the agent executor, or `.error` when
the Python code would raise (`mcp_result.error.get` on `None`).  The
`cloud_storage_mcp_url` parameter stands for `config.CLOUD_STORAGE_MCP_URL`. -/
def uploadFileRun (cloud_storage_mcp_url : String)
    (bucket_name destination_blob_name source_file_content : String)
    (outcome : TransportOutcome) : Except String String :=
  let mcp_result := call_mcp_tool cloud_storage_mcp_url "upload_file"
    [("bucket_name", Json.str bucket_name),
     ("destination_blob_name", Json.str destination_blob_name),
     ("source_file_content", Json.str source_file_content)] none outcome
  let success :=
    mcp_result.status = "success" &&
      (match mcp_result.result with
       | some m => hasKey m "public_url"
       | none => false)
  if success then
    match mcp_result.result with
    | some m =>
      match jlookup m "public_url" with
      | some v => .ok v.pyShow
      | none => .error "unreachable: public_url key vanished"
    | none => .error "unreachable: result vanished"
  else
    match mcp_result.error with
    | some m =>
      .ok ("Error uploading file: " ++
        (match jlookup m "message" with
         | some v => v.pyShow
         | none => "Unknown upload error"))
    | none => .error "AttributeError: NoneType object has no attribute get"

/-! ## Executable string primitives

The Python string operations used by the agents (`strip`, `startswith`,
`endswith`, `split`, `rsplit`, `join`) are modelled by structurally recursive
functions over character lists, so that every handler is evaluable on
concrete inputs. -/

/-- ASCII whitespace: the characters Python's `str.strip()` and the regex
class `\s` treat as space (non-ASCII whitespace is not modelled). -/
def isWsChar (c : Char) : Bool :=
  c = ' ' || c = '\t' || c = '\n' || c = '\r' ||
  c = Char.ofNat 11 || c = Char.ofNat 12

/-- Python `str.strip()`. -/
def pyStrip (s : String) : String :=
  String.mk (((s.toList.dropWhile isWsChar).reverse.dropWhile isWsChar).reverse)

/-- Python `str.startswith`. -/
def strStarts (s pre : String) : Bool :=
  pre.toList.isPrefixOf s.toList

/-- Python `str.endswith`. -/
def strEnds (s suf : String) : Bool :=
  suf.toList.reverse.isPrefixOf s.toList.reverse

/-- The text before and after the first occurrence of a (non-empty)
separator, or `none` if it does not occur. -/
def splitFirst (sep : List Char) : List Char → Option (List Char × List Char)
  | [] => if sep.isEmpty then some ([], []) else none
  | c :: rest =>
    if sep.isPrefixOf (c :: rest) then some ([], (c :: rest).drop sep.length)
    else (splitFirst sep rest).map (fun pr => (c :: pr.1, pr.2))

/-- Python `s.split(sep)[0]`: the text before the first occurrence of `sep`
(the whole string when `sep` is absent). -/
def beforeFirst (sep s : String) : String :=
  match splitFirst sep.toList s.toList with
  | some (before, _) => String.mk before
  | none => s

/-- Python `s.split(sep, 1)[1]`: the text after the first occurrence of
`sep` (only used when `sep` is known to occur; the whole string otherwise). -/
def pyAfterFirst (sep s : String) : String :=
  match splitFirst sep.toList s.toList with
  | some (_, after) => String.mk after
  | none => s

/-- Python `s.rsplit(sep, 1)[0]`: the text before the last occurrence of
`sep` (the whole string when `sep` is absent), found by scanning the
reversed string for the reversed separator. -/
def pyBeforeLast (sep s : String) : String :=
  match splitFirst sep.toList.reverse s.toList.reverse with
  | some (_, after) => String.mk after.reverse
  | none => s

/-- Python `sep.join`. -/
def joinSep (sep : String) : List String → String
  | [] => ""
  | [x] => x
  | x :: y :: xs => x ++ sep ++ joinSep sep (y :: xs)

/-! ## agents/article_draft/main.py — the article draft agent

The `AgentExecutor.ainvoke` call is abstracted as an `Except`-valued run:
`.ok` carries the returned `agent_outcome` (its `output` value and its
`intermediate_steps`), `.error e` is a raised exception with `str(e) = e`.
Each call to `send_a2a_result_to_task_manager` appends the
`A2APayloadTaskResult` it posts to the `sent` list of the handler's output
(the POST to the coordinator is assumed delivered; its own transport faults
are not modelled). -/

/-- The observation half of one `intermediate_steps` entry: a plain string,
an object with a `.content` attribute (e.g. an LLM message), or anything
else. -/
inductive ObsVal where
  | str (s : String)
  | msgContent (c : String)
  | otherObs

/-- One `(action, observation)` entry of `intermediate_steps`; `tool` is the
name of the tool the action invoked. -/
structure AgentStep where
  tool : String
  observation : ObsVal

/-- One element of a list-valued `output`: a dict with a string under the
`'text'` key, or anything else (skipped by the comprehension at line 165). -/
inductive OutItem where
  | textItem (t : String)
  | plainItem

/-- The `agent_outcome.get("output")` value: a string, a list, `None`/absent,
or some other type. -/
inductive OutputVal where
  | s (t : String)
  | l (items : List OutItem)
  | noneV
  | otherV

/-- The `agent_outcome` dict returned by a successful `ainvoke` (the agent is
created with `return_intermediate_steps=True`). -/
structure AgentOutcome where
  output : OutputVal
  intermediate_steps : List AgentStep

/-- Output of an agent's `receive_a2a_message`: the list of task-result
payloads it POSTed to the coordinator, and its own HTTP response. -/
structure HandlerOut where
  sent : List A2APayloadTaskResult
  resp : ApiResp

def textParts (items : List OutItem) : List String :=
  items.filterMap (fun i => match i with
    | .textItem t => some t
    | .plainItem => none)

/-- Lines 161-166: the combined text extracted from `output` alone. -/
def baseCombinedText : OutputVal → String
  | .s t => pyStrip t
  | .l items => pyStrip (joinSep " " (textParts items))
  | .noneV => ""
  | .otherV => ""

/-- Lines 168-176: when the combined text is empty and there are intermediate
steps, fall back to the last step's observation (its `.content` if it has
one, itself if it is a string), without stripping. -/
def combinedTextOf (o : AgentOutcome) : String :=
  let base := baseCombinedText o.output
  if base = "" && !o.intermediate_steps.isEmpty then
    match o.intermediate_steps.getLast? with
    | some st =>
      match st.observation with
      | .msgContent c => c
      | .str s => s
      | .otherObs => base
    | none => base
  else base

/-- Whether a position starts with the scheme part of the pattern
`https?://`; returns the matched scheme and the remaining characters. -/
def urlPrefixAt (cs : List Char) : Option (List Char × List Char) :=
  if cs.take 7 = "http://".toList then some (cs.take 7, cs.drop 7)
  else if cs.take 8 = "https://".toList then some (cs.take 8, cs.drop 8)
  else none

/-- Leftmost match of `re.search(r'https?://[^\s]+', ...)` over a character
list: at the first position where the scheme matches and at least one
non-whitespace character follows, the match is the scheme plus the maximal
non-whitespace run. -/
def searchUrl : List Char → Option String
  | [] => none
  | c :: rest =>
    match urlPrefixAt (c :: rest) with
    | some (pre, after) =>
      let run := after.takeWhile (fun ch => !isWsChar ch)
      if run.isEmpty then searchUrl rest else some (String.mk (pre ++ run))
    | none => searchUrl rest

def firstUrl (s : String) : Option String := searchUrl s.toList

/-- Line 184: `saved_url.split('[]')[0]`. -/
def beforeFirstSep (sep s : String) : String := beforeFirst sep s

/-- `raw_output` as stored in `final_result_data` (line 154).  Non-string
leaf values and the exact rendering of exotic outputs are irrelevant to every
claim and abstracted to `null`. -/
def rawOutputJson : OutputVal → Json
  | .s t => Json.str t
  | .l items => Json.arr (items.map (fun i => match i with
      | .textItem t => Json.obj [("text", Json.str t)]
      | .plainItem => Json.null))
  | .noneV => Json.null
  | .otherV => Json.null

/-- Lines 153-190 of article_draft/main.py: classification of a successful
`ainvoke` outcome into `(final_status, final_result_data, error_data)`. -/
def classifyArticleOutcome (outcome : AgentOutcome) :
    String × List (String × Json) × Option (List (String × Json)) :=
  let combined := combinedTextOf outcome
  let base : List (String × Json) :=
    [("raw_output", rawOutputJson outcome.output),
     ("final_text_response", Json.str combined)]
  match firstUrl combined with
  | some u =>
    let saved := beforeFirstSep "[]" u
    ("completed", base ++ [("saved_url", Json.str saved)], none)
  | none =>
    if combined = "" then
      ("failed", base,
       some [("code", Json.str "EMPTY_AGENT_OUTPUT"),
             ("message", Json.str "Agent Executor finished, but the output was empty or not text.")])
    else
      ("failed", base,
       some [("code", Json.str "URL_NOT_FOUND_IN_OUTPUT"),
             ("message", Json.str "Agent Executor finished, text generated, but no URL found in the output.")])

namespace ArticleDraft

/-- `receive_a2a_message` (agents/article_draft/main.py lines 86-231).
`bucket_env` is `os.getenv("CLOUD_STORAGE_BUCKET_NAME")`; `run` the abstract
`ainvoke` outcome.  The `if not agent_executor` guard at line 93 is omitted:
line 43 initializes the executor unconditionally at import, so the guard is
never taken in a running service.  Prompt construction (lines 129-151) has no
observable effect in this model and is omitted. -/
def receive_a2a_message (bucket_env : Option String) (message : A2AMessage)
    (run : Except String AgentOutcome) : HandlerOut :=
  if message.message_type = "assign_task" then
    match message.payload with
    | .assign p =>
      if p.task_type = "write_article_draft" then
        let topicTruthy :=
          match jlookup p.parameters "topic" with
          | some v => v.truthy
          | none => false
        if !topicTruthy then
          { sent := [⟨"failed", none,
              some [("code", Json.str "MISSING_PARAMETER"),
                    ("message", Json.str "Article topic is missing.")], none⟩],
            resp := .ok "error" message.message_id "Article topic is missing." }
        else
          let bucketTruthy :=
            match bucket_env with
            | some b => !(b = "")
            | none => false
          if !bucketTruthy then
            { sent := [⟨"failed", none,
                some [("code", Json.str "CONFIG_ERROR"),
                      ("message", Json.str "Cloud Storage bucket name is not configured.")], none⟩],
              resp := .httpError 500 "Cloud Storage bucket name is not configured." }
          else
            match run with
            | .ok outcome =>
              let c := classifyArticleOutcome outcome
              { sent := [⟨c.1, some c.2.1,
                  if c.1 = "failed" then c.2.2 else none, none⟩],
                resp := .ok "processing" message.message_id
                  "Article draft task received and processing started by AgentExecutor, result sent to Task Manager." }
            | .error e =>
              { sent := [⟨"failed", none,
                  some [("code", Json.str "AGENT_RUNTIME_ERROR"),
                        ("message", Json.str ("Unexpected error during AgentExecutor runtime: " ++ e))], none⟩],
                resp := .httpError 500 ("Unexpected error during AgentExecutor runtime: " ++ e) }
      else
        { sent := [⟨"failed", none,
            some [("code", Json.str "UNKNOWN_TASK_TYPE"),
                  ("message", Json.str ("Unknown task type received by Article Draft Agent: " ++ p.task_type))], none⟩],
          resp := .ok "error" message.message_id ("Unknown task type: " ++ p.task_type) }
    | _ =>
      { sent := [], resp := .ok "error" message.message_id "Invalid payload for assign_task message." }
  else if message.message_type = "task_status_update" then
    match message.payload with
    | .statusUpdate _ =>
      { sent := [], resp := .ok "ack" message.message_id "Status update received." }
    | _ =>
      { sent := [], resp := .ok "error" message.message_id "Invalid payload for task_status_update message." }
  else if message.message_type = "task_result" then
    { sent := [], resp := .ok "ack" message.message_id "Task result received (but not processed)." }
  else if message.message_type = "error" then
    { sent := [], resp := .ok "ack" message.message_id "Error message received (but not processed)." }
  else
    { sent := [], resp := .ok "error" message.message_id ("Unknown message type: " ++ message.message_type) }

end ArticleDraft

/-! ## agents/researcher/main.py — the researcher agent -/

namespace Researcher

/-- One element of a list-valued researcher `output`: a dict with a string
`'text'` entry, or anything else. -/
inductive RItem where
  | textItem (t : String)
  | plainItem

/-- The researcher's `agent_outcome.get("output")` value.  The `shown`
components carry the Python `str()` rendering used by the fallbacks at lines
84 and 86. -/
inductive ROutput where
  | s (t : String)
  | l (items : List RItem) (shown : String)
  | noneV
  | otherV (shown : String)

/-- Lines 74-86: extraction of the summary string from the output value. -/
def summaryOf : ROutput → String
  | .s t => t
  | .l items shown =>
    match items with
    | .textItem t :: _ => t
    | .plainItem :: _ => shown
    | [] => shown
  | .noneV => "Agent did not produce a readable summary."
  | .otherV shown => shown

/-- Lines 88-92: strip a leading `<result>` tag and a trailing `</result>`
tag, then strip whitespace. -/
def stripResultTags (sum0 : String) : String :=
  let s1 := if strStarts (pyStrip sum0) "<result>" then pyAfterFirst "<result>" sum0 else sum0
  let s2 := if strEnds (pyStrip s1) "</result>" then pyBeforeLast "</result>" s1 else s1
  pyStrip s2

/-- The `failed` payload built by `send_a2a_error_to_task_manager` (lines
164-171); every call site uses the default code `AGENT_ERROR`. -/
def errorPayload (msg : String) : A2APayloadTaskResult :=
  ⟨"failed", none,
   some [("code", Json.str "AGENT_ERROR"), ("message", Json.str msg)], none⟩

/-- `receive_a2a_message` (agents/researcher/main.py lines 37-120).  `run`
abstracts `agent_executor.ainvoke`; exceptions raised anywhere inside the
`try` block (including by the summary post-processing on surprising Python
values) are collapsed into its `.error` case. -/
def receive_a2a_message (message : A2AMessage)
    (run : Except String ROutput) : HandlerOut :=
  if message.message_type = "assign_task" then
    let payloadRes : Except String A2APayloadAssignTask :=
      match message.payload with
      | .assign p => .ok p
      | .dict d =>
        match vldAssignTask d with
        | some (p, _) => .ok p
        | none => .error "validation of payload dict as A2APayloadAssignTask failed"
      | .statusUpdate _ => .error "Unexpected payload type received for assign_task: A2APayloadTaskStatusUpdate"
      | .taskResult _ => .error "Unexpected payload type received for assign_task: A2APayloadTaskResult"
    match payloadRes with
    | .error e =>
      { sent := [errorPayload ("Payload validation/type check failed: " ++ e)],
        resp := .ok "error" message.message_id ("Payload validation/type check failed: " ++ e) }
    | .ok p =>
      if p.task_type = "research" then
        let topicTruthy :=
          match jlookup p.parameters "topic" with
          | some v => v.truthy
          | none => false
        if !topicTruthy then
          { sent := [errorPayload "Research topic is missing."],
            resp := .ok "error" message.message_id "Research topic is missing." }
        else
          match run with
          | .ok out =>
            let summary := stripResultTags (summaryOf out)
            { sent := [⟨"completed", some [("summary", Json.str summary)], none, none⟩],
              resp := .ok "ack" message.message_id "Research task processed and result sent to Task Manager." }
          | .error e =>
            { sent := [errorPayload ("Agent execution or result sending failed: " ++ e)],
              resp := .ok "ack_error" message.message_id "Agent execution failed, error sent to Task Manager." }
      else
        { sent := [errorPayload ("Unknown task type received: " ++ p.task_type)],
          resp := .ok "error" message.message_id ("Unknown task type: " ++ p.task_type) }
  else if message.message_type = "task_status_update" then
    { sent := [], resp := .ok "ack" message.message_id "Status update received." }
  else
    { sent := [], resp := .ok "error" message.message_id ("Unknown message type: " ++ message.message_type) }

end Researcher

/-! ## Coordinator traces

A system-level run of the coordinator: the table starts empty and each step
is one invocation of a state-mutating endpoint (either trigger, or result
ingestion); `get_task_status` is read-only. -/

inductive SysStep where
  | trigResearch (topic tid mid : String) (send : SendOutcome)
  | trigArticle (topic : String) (style : Option String) (tid mid : String) (send : SendOutcome)
  | ingest (message : A2AMessage)

def stepTable (t : Table) : SysStep → Table
  | .trigResearch topic tid mid send => (trigger_research_task topic tid mid t send).1
  | .trigArticle topic style tid mid send => (trigger_article_task topic style tid mid t send).1
  | .ingest m => (receive_a2a_result t m).1

def runSteps (steps : List SysStep) : Table := steps.foldl stepTable []

/-- Whether a step is a trigger call that generated this `task_id`. -/
def SysStep.triggers (s : SysStep) (tid : String) : Bool :=
  match s with
  | .trigResearch _ t _ _ => t = tid
  | .trigArticle _ _ t _ _ => t = tid
  | .ingest _ => false

/-- Whether a step is a result ingestion carrying this `task_id`. -/
def SysStep.ingests (s : SysStep) (tid : String) : Bool :=
  match s with
  | .ingest m => m.task_id = tid
  | _ => false

/-- The terminal record statuses (spec glossary): `completed`, `failed`,
`requires_clarification`. -/
def isTerminal (s : String) : Bool :=
  s = "completed" || s = "failed" || s = "requires_clarification"

/-- Whether a stored value is a plain string or `None` — the type the spec
asserts for the record's `question` field. -/
def isStrOrNull : Json → Bool
  | .null => true
  | .str _ => true
  | _ => false

-- DEFINITIONS CONTINUE HERE

/-! ## Theorems -/

theorem vldA2APayload_dump_assign (p : A2APayloadAssignTask) :
    vldA2APayload (Json.obj p.dump) = some (.assign p) := by
  cases p with
  | mk t pars =>
    simp [A2APayloadAssignTask.dump, vldA2APayload, vldAssignTask, vldStatusUpdate,
          vldTaskResult, jlookup, decStr, decOptStr, decOptObj, decOptIntD, decObjD,
          encOptStr, encOptObj, countKeys, hasKey, pickBest, Option.toList]

theorem vldA2APayload_dump_statusUpdate (p : A2APayloadTaskStatusUpdate) :
    vldA2APayload (Json.obj p.dump) = some (.statusUpdate p) := by
  cases p with
  | mk s pr msg =>
    cases pr <;> cases msg <;>
      simp [A2APayloadTaskStatusUpdate.dump, vldA2APayload, vldAssignTask, vldStatusUpdate,
            vldTaskResult, jlookup, decStr, decOptStr, decOptObj, decOptIntD, decObjD,
            encOptStr, encOptObj, encOptInt, countKeys, hasKey, pickBest, Option.toList]

theorem vldA2APayload_dump_taskResult (p : A2APayloadTaskResult) :
    vldA2APayload (Json.obj p.dump) = some (.taskResult p) := by
  cases p with
  | mk s r e q =>
    cases r <;> cases e <;> cases q <;>
      simp [A2APayloadTaskResult.dump, vldA2APayload, vldAssignTask, vldStatusUpdate,
            vldTaskResult, jlookup, decStr, decOptStr, decOptObj, decOptIntD, decObjD,
            encOptStr, encOptObj, countKeys, hasKey, pickBest, Option.toList]

theorem vldA2APayload_dump (p : A2APayload) (h : p.canonical = true) :
    vldA2APayload p.dump = some p := by
  cases p with
  | assign q => exact vldA2APayload_dump_assign q
  | statusUpdate q => exact vldA2APayload_dump_statusUpdate q
  | taskResult q => exact vldA2APayload_dump_taskResult q
  | dict d =>
    simp only [A2APayload.canonical, Bool.and_eq_true, Option.isNone_iff_eq_none] at h
    obtain ⟨⟨h1, h2⟩, h3⟩ := h
    simp [A2APayload.dump, vldA2APayload, h1, h2, h3, pickBest]

theorem vldA2AMessage_dump (m : A2AMessage) (h : m.payload.canonical = true) :
    vldA2AMessage m.dump = some m := by
  cases m with
  | mk tid mid sid rid mt ts pl ctx =>
    simp [A2AMessage.dump, vldA2AMessage, jlookup, decStr, decObjD,
          vldA2APayload_dump pl h]

theorem vldMCPParams_dump_generate (p : CreativeLLMGenerateParameters) :
    vldMCPParams (Json.obj p.dump) = some (.generate p) := by
  cases p with
  | mk pr mo mt te =>
    cases mo <;> cases mt <;> cases te <;>
      simp [CreativeLLMGenerateParameters.dump, vldMCPParams, vldGenerate, vldUpload,
            vldDownload, vldDelete, jlookup, decStr, decOptStr, decOptIntD, decOptRatD,
            encOptStr, encOptInt, encOptRat, countKeys, hasKey, pickBest, Option.toList]

theorem vldMCPParams_dump_upload (p : CloudStorageUploadParameters) :
    vldMCPParams (Json.obj p.dump) = some (.upload p) := by
  cases p with
  | mk b d s =>
    simp [CloudStorageUploadParameters.dump, vldMCPParams, vldGenerate, vldUpload,
          vldDownload, vldDelete, jlookup, decStr, decOptStr, decOptIntD, decOptRatD,
          countKeys, hasKey, pickBest, Option.toList]

theorem vldMCPParams_dump_download (p : CloudStorageDownloadParameters) :
    vldMCPParams (Json.obj p.dump) = some (.download p) := by
  cases p with
  | mk b s =>
    simp [CloudStorageDownloadParameters.dump, vldMCPParams, vldGenerate, vldUpload,
          vldDownload, vldDelete, jlookup, decStr, decOptStr, decOptIntD, decOptRatD,
          countKeys, hasKey, pickBest, Option.toList]

theorem vldMCPParams_dump_delete (p : CloudStorageDeleteParameters) :
    vldMCPParams (Json.obj p.dump) = some (.delete p) := by
  cases p with
  | mk b bl =>
    simp [CloudStorageDeleteParameters.dump, vldMCPParams, vldGenerate, vldUpload,
          vldDownload, vldDelete, jlookup, decStr, decOptStr, decOptIntD, decOptRatD,
          countKeys, hasKey, pickBest, Option.toList]

theorem vldMCPParams_dump (p : MCPParams) (h : p.canonical = true) :
    vldMCPParams p.dump = some p := by
  cases p with
  | generate q => exact vldMCPParams_dump_generate q
  | upload q => exact vldMCPParams_dump_upload q
  | download q => exact vldMCPParams_dump_download q
  | delete q => exact vldMCPParams_dump_delete q
  | dict d =>
    simp only [MCPParams.canonical, Bool.and_eq_true, Option.isNone_iff_eq_none] at h
    obtain ⟨⟨⟨h1, h2⟩, h3⟩, h4⟩ := h
    simp [MCPParams.dump, vldMCPParams, h1, h2, h3, h4, pickBest]

theorem vldMCPToolCall_dump (c : MCPToolCall) (h : c.parameters.canonical = true) :
    vldMCPToolCall c.dump = some c := by
  cases c with
  | mk tn tid pars =>
    cases tid <;>
      simp [MCPToolCall.dump, vldMCPToolCall, jlookup, decStr, decOptStr, encOptStr,
            vldMCPParams_dump pars h]

theorem vldMCPToolResult_dump (r : MCPToolResult) :
    vldMCPToolResult r.dump = some r := by
  cases r with
  | mk s re e =>
    cases re <;> cases e <;>
      simp [MCPToolResult.dump, vldMCPToolResult, jlookup, decStr, decOptObj, encOptObj]

/-- C10: encoding with `model_dump` and decoding back with `model_validate`
yields a value equal to the original in all populated fields, for every
TaskMessage over any payload variant — the three tagged models and the
trailing open-map arm — for every MCPToolCall over any parameters variant —
the four known shapes and the open map carrying an unknown tool's parameters
(e.g. the research tool's `{"query": ...}`) — and for every MCPToolResult.
For the open-map arms the quantification carries the canonicity condition
that no model member of the union validates the map: those are exactly the
dict-arm values pydantic's own validation can produce (a map some model
member accepts is decoded to that model, so it never inhabits the dict arm),
i.e. the spec's "unknown tools receive an open map".  Optional fields set to
`None` are emitted as `null` and decoded back to `None` (and a decoder also
accepts the field being absent), so the null/absent distinction never
corrupts a populated field. -/
theorem c10_serialization_roundtrip :
    (∀ m : A2AMessage, m.payload.canonical = true →
        vldA2AMessage m.dump = some m) ∧
    (∀ c : MCPToolCall, c.parameters.canonical = true →
        vldMCPToolCall c.dump = some c) ∧
    (∀ r : MCPToolResult, vldMCPToolResult r.dump = some r) :=
  ⟨vldA2AMessage_dump, vldMCPToolCall_dump, vldMCPToolResult_dump⟩

theorem c10_serialization_roundtrip_witness :
    (A2APayload.canonical
        (.taskResult ⟨"completed", some [("saved_url", Json.str "https://x/y.md")], none, none⟩) = true ∧
      vldA2AMessage (A2AMessage.mk "t1" "m1" "researcher_agent" "task_manager_agent"
          "task_result" "2024-01-01T00:00:00"
          (.taskResult ⟨"completed", some [("saved_url", Json.str "https://x/y.md")], none, none⟩)
          []).dump =
        some (A2AMessage.mk "t1" "m1" "researcher_agent" "task_manager_agent"
          "task_result" "2024-01-01T00:00:00"
          (.taskResult ⟨"completed", some [("saved_url", Json.str "https://x/y.md")], none, none⟩)
          [])) ∧
    (A2APayload.canonical (.dict [("note", Json.str "free-form")]) = true ∧
      vldA2AMessage (A2AMessage.mk "t2" "m2" "task_manager_agent" "researcher_agent"
          "error" "2024-01-01T00:00:00" (.dict [("note", Json.str "free-form")]) []).dump =
        some (A2AMessage.mk "t2" "m2" "task_manager_agent" "researcher_agent"
          "error" "2024-01-01T00:00:00" (.dict [("note", Json.str "free-form")]) [])) ∧
    (MCPParams.canonical (.upload ⟨"bkt", "a.md", "hello"⟩) = true ∧
      vldMCPToolCall (MCPToolCall.mk "upload_file" none (.upload ⟨"bkt", "a.md", "hello"⟩)).dump =
        some (MCPToolCall.mk "upload_file" none (.upload ⟨"bkt", "a.md", "hello"⟩))) ∧
    (MCPParams.canonical (.dict [("query", Json.str "IoT")]) = true ∧
      vldMCPToolCall (MCPToolCall.mk "search_web" none (.dict [("query", Json.str "IoT")])).dump =
        some (MCPToolCall.mk "search_web" none (.dict [("query", Json.str "IoT")]))) ∧
    vldMCPToolResult (MCPToolResult.mk "failure" none
        (some [("code", Json.str "BUCKET_NOT_FOUND")])).dump =
      some (MCPToolResult.mk "failure" none (some [("code", Json.str "BUCKET_NOT_FOUND")])) :=
  ⟨⟨rfl, c10_serialization_roundtrip.1 _ rfl⟩,
   ⟨rfl, c10_serialization_roundtrip.1 _ rfl⟩,
   ⟨rfl, c10_serialization_roundtrip.2.1 _ rfl⟩,
   ⟨rfl, c10_serialization_roundtrip.2.1 _ rfl⟩,
   c10_serialization_roundtrip.2.2 _⟩

/-- C3: `call_mcp_tool` is a total function into `MCPToolResult` (so it never
raises to the caller), and every transport-level failure — request exception
(connection error, timeout, non-2xx status) or malformed/unvalidatable
response body, as well as any other exception — is converted into a failure
result carrying `MCP_CALL_FAILED` or `UNEXPECTED_ERROR` and a diagnostic
message; a validating 2xx body is returned as decoded. -/
theorem c3_call_mcp_tool_never_raises :
    ∀ (url tool : String) (params : List (String × Json)) (tid : Option String),
      (∀ e, call_mcp_tool url tool params tid (.reqError e) =
        ⟨"failure", none,
         some [("code", Json.str "MCP_CALL_FAILED"), ("message", Json.str e)]⟩) ∧
      (∀ e, call_mcp_tool url tool params tid (.otherError e) =
        ⟨"failure", none,
         some [("code", Json.str "UNEXPECTED_ERROR"), ("message", Json.str e)]⟩) ∧
      (∀ body, vldMCPToolResult body = none →
        call_mcp_tool url tool params tid (.ok body) =
          ⟨"failure", none,
           some [("code", Json.str "UNEXPECTED_ERROR"),
                 ("message", Json.str "validation of response body as MCPToolResult failed")]⟩) ∧
      (∀ body r, vldMCPToolResult body = some r →
        call_mcp_tool url tool params tid (.ok body) = r) := by
  intro url tool params tid
  refine ⟨fun e => rfl, fun e => rfl, ?_, ?_⟩
  · intro body h
    simp [call_mcp_tool, h]
  · intro body r h
    simp [call_mcp_tool, h]

theorem c3_call_mcp_tool_never_raises_witness :
    vldMCPToolResult (Json.str "not json object") = none ∧
    call_mcp_tool "http://cloud-storage-mcp:80/mcp/tool" "upload_file" [] none
        (.ok (Json.str "not json object")) =
      ⟨"failure", none,
       some [("code", Json.str "UNEXPECTED_ERROR"),
             ("message", Json.str "validation of response body as MCPToolResult failed")]⟩ :=
  ⟨rfl, (c3_call_mcp_tool_never_raises "http://cloud-storage-mcp:80/mcp/tool"
      "upload_file" [] none).2.2.1 _ rfl⟩

/-- C5: when the dispatch send times out, both trigger endpoints leave the
task record at `processing` and return the same success response (with the
`task_id`) as the successful-dispatch path. -/
theorem c5_trigger_timeout_is_success :
    ∀ (topic tid mid : String) (style : Option String) (table : Table),
      ((trigger_research_task topic tid mid table .timeout).1.get tid =
          some processingRecord ∧
        (trigger_research_task topic tid mid table .timeout).2 =
          .ok "processing" tid "Research task assignment sent." ∧
        (trigger_research_task topic tid mid table .timeout).2 =
          (trigger_research_task topic tid mid table .ok).2) ∧
      ((trigger_article_task topic style tid mid table .timeout).1.get tid =
          some processingRecord ∧
        (trigger_article_task topic style tid mid table .timeout).2 =
          .ok "processing" tid "Article draft task assignment sent." ∧
        (trigger_article_task topic style tid mid table .timeout).2 =
          (trigger_article_task topic style tid mid table .ok).2) := by
  intro topic tid mid style table
  refine ⟨⟨?_, rfl, rfl⟩, ⟨?_, rfl, rfl⟩⟩ <;>
    simp [trigger_research_task, trigger_article_task, Table.get, Table.set]

/-- C8: immediately after a successful dispatch (quick 2xx or the
timeout-treated-as-success path), and before any result is ingested,
`get_task_status` for the fresh `task_id` returns a record with status
`processing` and `null` result, error and question. -/
theorem c8_status_processing_after_trigger :
    ∀ (topic tid mid : String) (style : Option String) (table : Table)
      (send : SendOutcome), send = .ok ∨ send = .timeout →
      get_task_status (trigger_research_task topic tid mid table send).1 tid =
        .ok ⟨"processing", Json.null, Json.null, Json.null⟩ ∧
      get_task_status (trigger_article_task topic style tid mid table send).1 tid =
        .ok ⟨"processing", Json.null, Json.null, Json.null⟩ := by
  intro topic tid mid style table send h
  rcases h with h | h <;> subst h <;>
    constructor <;>
      simp [get_task_status, trigger_research_task, trigger_article_task,
            Table.get, Table.set, processingRecord]

theorem c8_status_processing_after_trigger_witness :
    (SendOutcome.timeout = SendOutcome.ok ∨ SendOutcome.timeout = SendOutcome.timeout) ∧
    get_task_status (trigger_research_task "IoT" "T1" "M1" [] .timeout).1 "T1" =
      .ok ⟨"processing", Json.null, Json.null, Json.null⟩ :=
  ⟨Or.inr rfl,
   (c8_status_processing_after_trigger "IoT" "T1" "M1" none [] .timeout (Or.inr rfl)).1⟩

theorem Table.get_set_self (t : Table) (k : String) (r : TaskRecord) :
    (t.set k r).get k = some r := by
  simp [Table.get, Table.set]

theorem Table.get_set_other (t : Table) (k k' : String) (r : TaskRecord)
    (h : k' ≠ k) : (t.set k r).get k' = t.get k' := by
  simp [Table.get, Table.set, Ne.symm h]

/-- The status written by the single status-keyed update is never
`processing`: one of the three accepted terminal statuses, or `unknown`. -/
theorem applyTaskResult_status_ne_processing (p : A2APayloadTaskResult)
    (cur : TaskRecord) : (applyTaskResult p cur).status ≠ "processing" := by
  unfold applyTaskResult
  split_ifs with h1 h2 h3 <;> simp_all

/-- Result ingestion touches no table entry other than the message's
`task_id`. -/
theorem receive_a2a_result_get_other (table : Table) (message : A2AMessage)
    (tid : String) (h : tid ≠ message.task_id) :
    (receive_a2a_result table message).1.get tid = table.get tid := by
  unfold receive_a2a_result
  split_ifs with h1 h2
  · rfl
  · cases hp : message.payload with
    | taskResult p => simp [Table.get_set_other _ _ _ _ h]
    | dict d =>
      cases hv : vldTaskResult d with
      | none => simp [hv, Table.get_set_other _ _ _ _ h]
      | some pr => simp [hv, Table.get_set_other _ _ _ _ h]
    | assign p => simp [Table.get_set_other _ _ _ _ h]
    | statusUpdate p => simp [Table.get_set_other _ _ _ _ h]
  · rfl

/-- C2: once a task's record is terminal, no later invocation of result
ingestion — for this task or any other, including stray duplicate
`task_result` messages — ever leaves that record with status `processing`:
every value the ingestion can write is one of the three terminal statuses,
`unknown`, or the `failed` of the malformed-payload arm, and untouched
records keep their (terminal, hence non-`processing`) status. -/
theorem c2_terminal_status_never_reverts_to_processing :
    ∀ (table : Table) (message : A2AMessage) (tid : String)
      (rec rec' : TaskRecord),
      table.get tid = some rec → isTerminal rec.status = true →
      (receive_a2a_result table message).1.get tid = some rec' →
      rec'.status ≠ "processing" := by
  intro table message tid rec rec' hget hterm hget'
  have hne : rec.status ≠ "processing" := by
    intro hps
    rw [hps] at hterm
    simp [isTerminal] at hterm
  by_cases hid : tid = message.task_id
  · subst hid
    unfold receive_a2a_result at hget'
    split_ifs at hget' with h1 h2
    · rw [hget] at hget'
      exact (Option.some.inj hget') ▸ hne
    · cases hp : message.payload with
      | taskResult p =>
        rw [hp] at hget'
        simp [Table.get_set_self] at hget'
        rw [← hget']
        exact applyTaskResult_status_ne_processing p _
      | dict d =>
        rw [hp] at hget'
        cases hv : vldTaskResult d with
        | none =>
          simp [hv, Table.get_set_self] at hget'
          rw [← hget']
          simp [payloadErrorRecord]
        | some pr =>
          simp [hv, Table.get_set_self] at hget'
          rw [← hget']
          exact applyTaskResult_status_ne_processing pr.1 _
      | assign p =>
        rw [hp] at hget'
        simp [Table.get_set_self] at hget'
        rw [← hget']
        simp [payloadErrorRecord]
      | statusUpdate p =>
        rw [hp] at hget'
        simp [Table.get_set_self] at hget'
        rw [← hget']
        simp [payloadErrorRecord]
    · rw [hget] at hget'
      exact (Option.some.inj hget') ▸ hne
  · rw [receive_a2a_result_get_other table message tid hid, hget] at hget'
    exact (Option.some.inj hget') ▸ hne

theorem c2_terminal_status_never_reverts_to_processing_witness :
    Table.get [("T", ⟨"completed", Json.obj [], Json.null, Json.null⟩)] "T" =
        some ⟨"completed", Json.obj [], Json.null, Json.null⟩ ∧
    isTerminal "completed" = true ∧
    (receive_a2a_result [("T", ⟨"completed", Json.obj [], Json.null, Json.null⟩)]
        ⟨"T", "M2", "researcher_agent", "task_manager_agent", "task_result", "ts",
         .taskResult ⟨"failed", none, some [("message", Json.str "boom")], none⟩, []⟩).1.get "T" =
      some ⟨"failed", Json.null, Json.obj [("message", Json.str "boom")], Json.null⟩ ∧
    ("failed" : String) ≠ "processing" :=
  ⟨rfl, rfl, rfl,
   c2_terminal_status_never_reverts_to_processing
     [("T", ⟨"completed", Json.obj [], Json.null, Json.null⟩)]
     ⟨"T", "M2", "researcher_agent", "task_manager_agent", "task_result", "ts",
      .taskResult ⟨"failed", none, some [("message", Json.str "boom")], none⟩, []⟩
     "T" ⟨"completed", Json.obj [], Json.null, Json.null⟩
     ⟨"failed", Json.null, Json.obj [("message", Json.str "boom")], Json.null⟩
     rfl rfl rfl⟩

/-- C6 counterexample: ingesting a `requires_clarification` result whose
payload carries no question stores the default as the dict
`{"text": "Clarification needed, no question provided."}` — the record's
`question` field is then neither a string nor null, contradicting the claim
that the record's question field is a string or null holding the payload's
question or a default text. -/
theorem c6_counterexample_default_question_is_a_dict :
    ((receive_a2a_result []
        ⟨"T", "M1", "researcher_agent", "task_manager_agent", "task_result", "ts",
         .taskResult ⟨"requires_clarification", none, none, none⟩, []⟩).1.get "T").map
        TaskRecord.question =
      some (Json.obj [("text", Json.str "Clarification needed, no question provided.")]) ∧
    isStrOrNull (Json.obj [("text", Json.str "Clarification needed, no question provided.")]) =
      false :=
  ⟨rfl, rfl⟩

/-- C6 (amended): for every ingested `task_result`, exactly one update keyed
on the payload's status is applied: `completed` sets `result` to the
payload's result or the empty map and clears `error`/`question`; `failed`
sets `error` to the payload's error, defaulting (also when the error is the
falsy empty dict) to `{"message": "Unknown error from agent."}`, and clears
`result`/`question`; `requires_clarification` sets `question` to the
payload's question when it is a non-empty string and otherwise to the
default dict `{"text": "Clarification needed, no question provided."}` (so
the stored question is a string or a dict, not necessarily a string or
null), and clears `result`/`error`. -/
theorem c6_single_status_keyed_update :
    ∀ (table : Table) (message : A2AMessage) (p : A2APayloadTaskResult),
      message.task_id ≠ "" → message.message_type = "task_result" →
      message.payload = .taskResult p →
      (p.status = "completed" →
        (receive_a2a_result table message).1.get message.task_id =
          some ⟨"completed", Json.obj (resultOrEmpty p.result), Json.null, Json.null⟩) ∧
      (p.status = "failed" →
        (receive_a2a_result table message).1.get message.task_id =
          some ⟨"failed", Json.null, Json.obj (errorOrDefault p.error), Json.null⟩) ∧
      (p.status = "requires_clarification" →
        (receive_a2a_result table message).1.get message.task_id =
          some ⟨"requires_clarification", Json.null, Json.null,
                questionOrDefault p.question⟩) := by
  intro table message p hid hmt hpl
  refine ⟨?_, ?_, ?_⟩ <;> intro hs <;>
    simp [receive_a2a_result, hid, hmt, hpl, Table.get_set_self,
          applyTaskResult, hs]

theorem c6_single_status_keyed_update_witness :
    (("T" : String) ≠ "" ∧ ("task_result" : String) = "task_result" ∧
      A2APayload.taskResult
          (⟨"completed", some [("summary", Json.str "done")], none, none⟩ : A2APayloadTaskResult) =
        .taskResult ⟨"completed", some [("summary", Json.str "done")], none, none⟩) ∧
    (receive_a2a_result []
        ⟨"T", "M1", "researcher_agent", "task_manager_agent", "task_result", "ts",
         .taskResult ⟨"completed", some [("summary", Json.str "done")], none, none⟩, []⟩).1.get "T" =
      some ⟨"completed", Json.obj [("summary", Json.str "done")], Json.null, Json.null⟩ :=
  ⟨⟨by decide, rfl, rfl⟩,
   (c6_single_status_keyed_update []
      ⟨"T", "M1", "researcher_agent", "task_manager_agent", "task_result", "ts",
       .taskResult ⟨"completed", some [("summary", Json.str "done")], none, none⟩, []⟩
      ⟨"completed", some [("summary", Json.str "done")], none, none⟩
      (by decide) rfl rfl).1 rfl⟩

/-- C7: a `task_result` whose payload status is none of the three recognized
values sets the record's status to `unknown` and attaches the diagnostic
error naming the unrecognized status; the other fields keep their current
values, and the endpoint still acknowledges (it answers `ack`, raising no
exception). -/
theorem c7_unknown_status_is_diagnosed :
    ∀ (table : Table) (message : A2AMessage) (p : A2APayloadTaskResult),
      message.task_id ≠ "" → message.message_type = "task_result" →
      message.payload = .taskResult p →
      p.status ≠ "completed" → p.status ≠ "failed" →
      p.status ≠ "requires_clarification" →
      (receive_a2a_result table message).1.get message.task_id =
        some ⟨"unknown",
              ((table.get message.task_id).getD defaultRecord).result,
              Json.obj [("message", Json.str ("Received unknown status: " ++ p.status))],
              ((table.get message.task_id).getD defaultRecord).question⟩ ∧
      (receive_a2a_result table message).2 =
        .ok "ack" message.message_id "Result received and processed." := by
  intro table message p hid hmt hpl h1 h2 h3
  constructor <;>
    simp [receive_a2a_result, hid, hmt, hpl, Table.get_set_self,
          applyTaskResult, h1, h2, h3]

theorem c7_unknown_status_is_diagnosed_witness :
    (receive_a2a_result []
        ⟨"T", "M1", "researcher_agent", "task_manager_agent", "task_result", "ts",
         .taskResult ⟨"paused", none, none, none⟩, []⟩).1.get "T" =
      some ⟨"unknown", Json.null,
            Json.obj [("message", Json.str "Received unknown status: paused")],
            Json.null⟩ ∧
    (receive_a2a_result []
        ⟨"T", "M1", "researcher_agent", "task_manager_agent", "task_result", "ts",
         .taskResult ⟨"paused", none, none, none⟩, []⟩).2 =
      .ok "ack" "M1" "Result received and processed." :=
  c7_unknown_status_is_diagnosed []
    ⟨"T", "M1", "researcher_agent", "task_manager_agent", "task_result", "ts",
     .taskResult ⟨"paused", none, none, none⟩, []⟩
    ⟨"paused", none, none, none⟩
    (by decide) rfl rfl (by decide) (by decide) (by decide)

/-- C9 counterexample: the result-ingestion endpoint lazily creates a record
for any `task_id` it is given, so after a stray `task_result` for a task
that was never passed to any trigger operation, `get_task_status` finds a
record and does not report not-found — refuting the claim for task ids that
were never triggered but saw an ingestion. -/
theorem c9_counterexample_stray_ingestion_creates_record :
    ([SysStep.ingest
        ⟨"X", "M9", "researcher_agent", "task_manager_agent", "task_result", "ts",
         .taskResult ⟨"completed", none, none, none⟩, []⟩].all
        (fun s => !(s.triggers "X"))) = true ∧
    get_task_status
        (runSteps [SysStep.ingest
          ⟨"X", "M9", "researcher_agent", "task_manager_agent", "task_result", "ts",
           .taskResult ⟨"completed", none, none, none⟩, []⟩]) "X" =
      .ok ⟨"completed", Json.obj [], Json.null, Json.null⟩ ∧
    StatusResp.ok (⟨"completed", Json.obj [], Json.null, Json.null⟩ : TaskRecord) ≠
      .httpError 404 "Task ID not found or not yet initialized." := by
  refine ⟨rfl, rfl, ?_⟩
  intro h
  exact StatusResp.noConfusion h

/-- A step that neither triggers nor ingests a `task_id` leaves that id's
table entry unchanged. -/
theorem stepTable_get_other (t : Table) (s : SysStep) (tid : String)
    (htrig : s.triggers tid = false) (hing : s.ingests tid = false) :
    (stepTable t s).get tid = t.get tid := by
  cases s with
  | trigResearch topic tid' mid send =>
    simp [SysStep.triggers] at htrig
    cases send with
    | ok => simp [stepTable, trigger_research_task, Table.get_set_other _ _ _ _ (Ne.symm htrig)]
    | timeout => simp [stepTable, trigger_research_task, Table.get_set_other _ _ _ _ (Ne.symm htrig)]
    | reqError e =>
      simp [stepTable, trigger_research_task,
            Table.get_set_other _ _ _ _ (Ne.symm htrig)]
  | trigArticle topic style tid' mid send =>
    simp [SysStep.triggers] at htrig
    cases send with
    | ok => simp [stepTable, trigger_article_task, Table.get_set_other _ _ _ _ (Ne.symm htrig)]
    | timeout => simp [stepTable, trigger_article_task, Table.get_set_other _ _ _ _ (Ne.symm htrig)]
    | reqError e =>
      simp [stepTable, trigger_article_task,
            Table.get_set_other _ _ _ _ (Ne.symm htrig)]
  | ingest m =>
    simp [SysStep.ingests] at hing
    exact receive_a2a_result_get_other t m tid (Ne.symm hing)

theorem runSteps_get_none_of_untouched :
    ∀ (steps : List SysStep) (t : Table) (tid : String),
      (∀ s ∈ steps, s.triggers tid = false) →
      (∀ s ∈ steps, s.ingests tid = false) →
      t.get tid = none →
      (steps.foldl stepTable t).get tid = none := by
  intro steps
  induction steps with
  | nil => intro t tid _ _ h; simpa using h
  | cons s rest ih =>
    intro t tid htrig hing h
    simp only [List.foldl_cons]
    exact ih (stepTable t s) tid
      (fun x hx => htrig x (List.mem_cons_of_mem s hx))
      (fun x hx => hing x (List.mem_cons_of_mem s hx))
      (by rw [stepTable_get_other t s tid (htrig s (List.mem_cons_self s rest))
                (hing s (List.mem_cons_self s rest))]; exact h)

/-- C9 (amended): for every system run in which a `task_id` was never passed
to a trigger operation and never appeared in an ingested result, the status
query reports the not-found condition (an HTTP 404), which is distinct from
any `processing` answer. -/
theorem c9_unknown_task_is_not_found :
    ∀ (steps : List SysStep) (tid : String),
      (∀ s ∈ steps, s.triggers tid = false) →
      (∀ s ∈ steps, s.ingests tid = false) →
      get_task_status (runSteps steps) tid =
        .httpError 404 "Task ID not found or not yet initialized." := by
  intro steps tid htrig hing
  unfold get_task_status runSteps
  rw [runSteps_get_none_of_untouched steps [] tid htrig hing rfl]

theorem c9_unknown_task_is_not_found_witness :
    (∀ s ∈ [SysStep.trigResearch "IoT" "A" "M" .ok], s.triggers "B" = false) ∧
    (∀ s ∈ [SysStep.trigResearch "IoT" "A" "M" .ok], s.ingests "B" = false) ∧
    get_task_status (runSteps [SysStep.trigResearch "IoT" "A" "M" .ok]) "B" =
      .httpError 404 "Task ID not found or not yet initialized." :=
  ⟨by decide, by decide,
   c9_unknown_task_is_not_found [SysStep.trigResearch "IoT" "A" "M" .ok] "B"
     (by decide) (by decide)⟩

/-- C1: for every `assign_task` message accepted by an agent task handler —
its payload parsed as a well-formed `AssignTask` — exactly one `task_result`
message is sent to the coordinator's result-ingestion endpoint, whatever the
recognized/unrecognized task type, the missing-parameter checks, and the
success or raised exception of the executor run. -/
theorem c1_exactly_one_task_result_per_accepted_assignment :
    ∀ (message : A2AMessage) (p : A2APayloadAssignTask),
      message.message_type = "assign_task" → message.payload = .assign p →
      (∀ (bucket_env : Option String) (run : Except String AgentOutcome),
        (ArticleDraft.receive_a2a_message bucket_env message run).sent.length = 1) ∧
      (∀ run : Except String Researcher.ROutput,
        (Researcher.receive_a2a_message message run).sent.length = 1) := by
  intro message p hmt hpl
  constructor
  · intro bucket_env run
    simp only [ArticleDraft.receive_a2a_message, hmt, hpl]
    split_ifs <;> first | simp | (cases run <;> simp)
  · intro run
    simp only [Researcher.receive_a2a_message, hmt, hpl]
    split_ifs <;> first | simp | (cases run <;> simp)

theorem c1_exactly_one_task_result_per_accepted_assignment_witness :
    (("assign_task" : String) = "assign_task" ∧
      A2APayload.assign (⟨"research", [("topic", Json.str "IoT")]⟩ : A2APayloadAssignTask) =
        .assign ⟨"research", [("topic", Json.str "IoT")]⟩) ∧
    (ArticleDraft.receive_a2a_message (some "bkt")
        ⟨"T", "M", "task_manager_agent", "article_draft_agent", "assign_task", "ts",
         .assign ⟨"research", [("topic", Json.str "IoT")]⟩, []⟩
        (.error "boom")).sent.length = 1 ∧
    (Researcher.receive_a2a_message
        ⟨"T", "M", "task_manager_agent", "researcher_agent", "assign_task", "ts",
         .assign ⟨"research", [("topic", Json.str "IoT")]⟩, []⟩
        (.ok (.s "summary text"))).sent.length = 1 :=
  ⟨⟨rfl, rfl⟩,
   (c1_exactly_one_task_result_per_accepted_assignment
      ⟨"T", "M", "task_manager_agent", "article_draft_agent", "assign_task", "ts",
       .assign ⟨"research", [("topic", Json.str "IoT")]⟩, []⟩
      ⟨"research", [("topic", Json.str "IoT")]⟩ rfl rfl).1 (some "bkt") (.error "boom"),
   (c1_exactly_one_task_result_per_accepted_assignment
      ⟨"T", "M", "task_manager_agent", "researcher_agent", "assign_task", "ts",
       .assign ⟨"research", [("topic", Json.str "IoT")]⟩, []⟩
      ⟨"research", [("topic", Json.str "IoT")]⟩ rfl rfl).2 (.ok (.s "summary text"))⟩

/-- C4 counterexample: an article-draft run in which the storage upload tool
returned a failure (the recorded intermediate-step observation is exactly
what `UploadFileTool._arun` returns for a `BUCKET_NOT_FOUND` failure), yet
the agent's final output text contains a URL, is classified `completed` —
the emitted `task_result` has status `completed`, refuting "never status
completed when the upload tool fails".  The classification inspects only the
output text, not the tool results. -/
theorem c4_counterexample_upload_failure_still_completed :
    uploadFileRun "http://cloud-storage-mcp:80/mcp/tool" "bkt" "a.md" "content"
        (.ok (Json.obj [("status", Json.str "failure"),
          ("error", Json.obj [("code", Json.str "BUCKET_NOT_FOUND"),
                              ("message", Json.str "Bucket not found")])])) =
      .ok "Error uploading file: Bucket not found" ∧
    (ArticleDraft.receive_a2a_message (some "bkt")
        ⟨"T", "M", "task_manager_agent", "article_draft_agent", "assign_task", "ts",
         .assign ⟨"write_article_draft", [("topic", Json.str "IoT")]⟩, []⟩
        (.ok ⟨.s "https://storage.example.com/a.md",
              [⟨"upload_file", .str "Error uploading file: Bucket not found"⟩]⟩)).sent.map
        A2APayloadTaskResult.status =
      ["completed"] := by
  constructor
  · rfl
  · decide

/-- C4 (amended): for every accepted `write_article_draft` task with a topic
and configured bucket, a successful executor run is deterministically
classified into exactly one of `completed` or `failed`, keyed solely on
whether a URL is found in the combined output text — `completed` exactly
when one is, `failed` (with error details) otherwise; an upload-tool failure
therefore yields a `failed` result only when no URL appears in the final
output text. -/
theorem c4_classification_keyed_on_url_in_output :
    ∀ (message : A2AMessage) (p : A2APayloadAssignTask) (bucket : String)
      (outcome : AgentOutcome),
      message.message_type = "assign_task" → message.payload = .assign p →
      p.task_type = "write_article_draft" →
      (match jlookup p.parameters "topic" with
       | some v => v.truthy
       | none => false) = true →
      bucket ≠ "" →
      (ArticleDraft.receive_a2a_message (some bucket) message (.ok outcome)).sent.map
          A2APayloadTaskResult.status =
        [if (firstUrl (combinedTextOf outcome)).isSome then "completed" else "failed"] := by
  intro message p bucket outcome hmt hpl htt htopic hbucket
  simp only [ArticleDraft.receive_a2a_message, hmt, hpl, htt, htopic, hbucket]
  simp only [classifyArticleOutcome]
  cases hurl : firstUrl (combinedTextOf outcome) with
  | some u => simp [hurl, hbucket]
  | none =>
    by_cases hc : combinedTextOf outcome = "" <;> simp [hurl, hc, hbucket]

theorem c4_classification_keyed_on_url_in_output_witness :
    (("assign_task" : String) = "assign_task" ∧
      ("write_article_draft" : String) = "write_article_draft" ∧
      (match jlookup [("topic", Json.str "IoT")] "topic" with
       | some v => v.truthy
       | none => false) = true ∧
      ("bkt" : String) ≠ "") ∧
    (ArticleDraft.receive_a2a_message (some "bkt")
        ⟨"T", "M", "task_manager_agent", "article_draft_agent", "assign_task", "ts",
         .assign ⟨"write_article_draft", [("topic", Json.str "IoT")]⟩, []⟩
        (.ok ⟨.s "no link here", []⟩)).sent.map A2APayloadTaskResult.status =
      [if (firstUrl (combinedTextOf ⟨.s "no link here", []⟩)).isSome then "completed"
       else "failed"] :=
  ⟨⟨rfl, rfl, rfl, by decide⟩,
   c4_classification_keyed_on_url_in_output
     ⟨"T", "M", "task_manager_agent", "article_draft_agent", "assign_task", "ts",
      .assign ⟨"write_article_draft", [("topic", Json.str "IoT")]⟩, []⟩
     ⟨"write_article_draft", [("topic", Json.str "IoT")]⟩ "bkt"
     ⟨.s "no link here", []⟩ rfl rfl rfl rfl (by decide)⟩
